import Mathlib

/-!
# SCCommon.Cpp: smart-card query helpers

A shallow embedding of `SCCommon.Cpp` (allocation helpers, the four
probe/allocate/fetch queries, `SCGetResponse`, `SCSelectFile`) and the
properties proved about it.

Conventions of the embedding

* `BYTE`, `WORD`, `DWORD` values are natural numbers, reduced `% 2^w` wherever
  the source stores or casts them; `LONG` values are integers.
* Pointers and handles are natural numbers, `0` being `NULL`.
* The Win32 primitives the source calls (`HeapAlloc`, `HeapFree`,
  `SCardListReaders`, `SCardListCards`, `SCardListReaderGroups`,
  `SCardGetAttrib`, `SCardTransmit`) are oracles collected in `Env`.  Every
  oracle sees the events that happened before it in the call, so an `Env` is an
  arbitrary deterministic behaviour of the platform.
* Every function returns the trace of primitive calls it made, in order.
* A read of a block that was already passed to `HeapFree` yields what the
  allocator left there (`Env.releasedBytes`), not what the block held.
-/

namespace SCCommon

/-! ## Platform constants and macros (Windows SDK headers) -/

/-- Value of `SCARD_S_SUCCESS` in the Windows SDK header `winerror.h`. -/
def SCARD_S_SUCCESS : Int := 0

/-- Value of `ERROR_OUTOFMEMORY` in the Windows SDK header `winerror.h`. -/
def ERROR_OUTOFMEMORY : Int := 14

/-- Reinterpretation of a 32-bit pattern as a signed `LONG`. -/
def toLONG (x : Nat) : Int :=
  if x % 2 ^ 32 < 2 ^ 31 then ((x % 2 ^ 32 : Nat) : Int) else ((x % 2 ^ 32 : Nat) : Int) - 2 ^ 32

/-- Value of `SCARD_E_INVALID_PARAMETER` (`0x80100004`) in `winerror.h`, as the
`LONG` the functions return. -/
def SCARD_E_INVALID_PARAMETER : Int := toLONG 0x80100004

/-- The Windows SDK macro `MAKEWORD(a, b)` of `windef.h`:
`((WORD)(((BYTE)(a & 0xff)) | ((WORD)((BYTE)(b & 0xff))) << 8))`.
The first argument is the low byte, the second the high byte. -/
def MAKEWORD (a b : Nat) : Nat :=
  (a % 256) ||| ((b % 256) <<< 8)

/-- The Windows SDK macro `MAKELONG(a, b)` of `windef.h`:
`((LONG)(((WORD)(a & 0xffff)) | ((DWORD)((WORD)(b & 0xffff))) << 16))`.
The first argument is the low word, the second the high word. -/
def MAKELONG (a b : Nat) : Int :=
  toLONG ((a % 65536) ||| ((b % 65536) <<< 16))

/-! ## Events, oracles and memory blocks -/

/-- One call of a platform primitive, with the arguments the source passes. -/
inductive Event where
  /-- Call of `HeapAlloc(GetProcessHeap(), HEAP_ZERO_MEMORY, dwSize)` returning `ptr`. -/
  | heapAlloc (dwSize ptr : Nat)
  /-- Call of `HeapFree(GetProcessHeap(), 0, ptr)`. -/
  | heapFree (ptr : Nat)
  /-- Call of `SCardListReaders(hContext, groups, buf, &cch)`; `buf = 0` is the probe. -/
  | listReaders (hContext groups buf : Nat)
  /-- Call of `SCardListCards(hContext, atr, NULL, 0, buf, &cch)`; `buf = 0` is the probe. -/
  | listCards (hContext atr buf : Nat)
  /-- Call of `SCardListReaderGroups(hContext, buf, &cch)`; `buf = 0` is the probe. -/
  | listReaderGroups (hContext buf : Nat)
  /-- Call of `SCardGetAttrib(hCard, dwAttrId, buf, &cb)`; `buf = 0` is the probe. -/
  | getAttrib (hCard dwAttrId buf : Nat)
  /-- Call of `SCardTransmit(hCard, SCARD_PCI_T0, apdu, sizeof(apdu), NULL, recv, &cap)`. -/
  | transmit (hCard : Nat) (apdu : List Nat) (cap : Nat)
  deriving DecidableEq, Repr

/-- What a length-reporting primitive hands back: its return code, the length
it stores through the in/out length parameter, and the bytes it writes to the
buffer when one is supplied. -/
structure PrimReply where
  lResult : Int
  cch : Nat
  data : List Nat
  deriving DecidableEq, Repr

/-- What `SCardTransmit` hands back: its return code and the bytes it leaves in
the receive buffer from offset 0; the length it stores through the in/out
length parameter is the number of those bytes. -/
structure TransmitReply where
  lResult : Int
  data : List Nat
  deriving DecidableEq, Repr

/-- The platform the source runs against.  Each oracle receives the events that
precede the call. -/
structure Env where
  /-- Size `sizeof(_TCHAR)`: 1 in an ANSI build, 2 in a UNICODE build. -/
  tcharSize : Nat
  HeapAlloc : List Event → Nat → Nat
  HeapFree : List Event → Nat → Bool
  /-- What a read of a block finds after the block was passed to `HeapFree`.
  Arguments: the events up to and including that `HeapFree`, the pointer, and
  the bytes the block held when it was released. -/
  releasedBytes : List Event → Nat → List Nat → List Nat
  GetLastError : List Event → Int
  /-- Arguments: `hContext`, `mszGroups`, `mszReaders`, length on entry. -/
  SCardListReaders : List Event → Nat → Nat → Nat → Nat → PrimReply
  /-- Arguments: `hContext`, `pbAtr`, `mszCards`, length on entry. -/
  SCardListCards : List Event → Nat → Nat → Nat → Nat → PrimReply
  /-- Arguments: `hContext`, `mszGroups`, length on entry. -/
  SCardListReaderGroups : List Event → Nat → Nat → Nat → PrimReply
  /-- Arguments: `hCard`, `dwAttrId`, `pbAttr`, length on entry. -/
  SCardGetAttrib : List Event → Nat → Nat → Nat → Nat → PrimReply
  /-- Arguments: `hCard`, the command APDU, the capacity of the receive buffer. -/
  SCardTransmit : List Event → Nat → List Nat → Nat → TransmitReply

/-- A block of `dwSize` bytes as `HEAP_ZERO_MEMORY` leaves it. -/
def zeroBlock (dwSize : Nat) : List Nat :=
  List.replicate dwSize 0

/-- Bytes `data` stored from offset 0 into the byte buffer `buf`: each value is
reduced to a `BYTE`, nothing is written past the end of the buffer, and the
bytes of `buf` beyond the data keep their value. -/
def writeBytes (buf data : List Nat) : List Nat :=
  ((data.map (· % 256)).take buf.length) ++ buf.drop data.length

/-- The byte `buf[i]` (0 outside the buffer). -/
def byteAt (buf : List Nat) (i : Nat) : Nat :=
  buf.getD i 0

/-! ## SCMalloc and SCFree -/

/-- Model of `SCMalloc`: the pointer `HeapAlloc` returns (`0` when it fails) and the
extended trace. -/
def SCMalloc (env : Env) (hist : List Event) (dwSize : Nat) : Nat × List Event :=
  (env.HeapAlloc hist dwSize, hist ++ [Event.heapAlloc dwSize (env.HeapAlloc hist dwSize)])

/-- Model of `SCFree`: `assert(lpMemory != NULL)` is the proof argument; the result is
`SCARD_S_SUCCESS` when `HeapFree` succeeds and `GetLastError()` otherwise. -/
def SCFree (env : Env) (hist : List Event) (lpMemory : Nat) (_h : lpMemory ≠ 0) :
    Int × List Event :=
  if env.HeapFree hist lpMemory then
    (SCARD_S_SUCCESS, hist ++ [Event.heapFree lpMemory])
  else
    (env.GetLastError (hist ++ [Event.heapFree lpMemory]), hist ++ [Event.heapFree lpMemory])

/-- Result of an allocation-returning function. -/
structure QueryResult where
  /-- The returned `LONG`. -/
  lResult : Int
  /-- The pointer held by the output parameter on return (`0` is `NULL`). -/
  out : Nat
  /-- The bytes of the block the call allocated (`[]` when it allocated none):
  as the primitives wrote them or, where the function reads the block after
  releasing it, as that read finds them. -/
  block : List Nat
  /-- The primitive calls made, in order. -/
  trace : List Event
  deriving DecidableEq, Repr

/-! ## The probe/allocate/fetch queries -/

/-- Model of `SCListReaders`.  `out0` is the pointer the output parameter holds
on entry (`assert(lplpmszReaderNames != NULL)` holds of every output parameter
the model can express).  The length passed to the probe is indeterminate in the
source and ignored by the primitive when the buffer is `NULL`; the model
passes 0. -/
def SCListReaders (env : Env) (hContext lpmszReaderGroups : Nat) (_out0 : Nat) : QueryResult :=
  -- * lplpmszReaderNames = NULL;
  let probe := env.SCardListReaders [] hContext lpmszReaderGroups 0 0
  let t1 := [Event.listReaders hContext lpmszReaderGroups 0]
  if probe.lResult ≠ SCARD_S_SUCCESS then
    ⟨probe.lResult, 0, [], t1⟩
  else
    let dwReaders := probe.cch % 2 ^ 32
    let dwSize := (dwReaders * env.tcharSize) % 2 ^ 32
    let m := SCMalloc env t1 dwSize
    if h : m.1 = 0 then
      ⟨ERROR_OUTOFMEMORY, 0, [], m.2⟩
    else
      let fetch := env.SCardListReaders m.2 hContext lpmszReaderGroups m.1 dwReaders
      let t3 := m.2 ++ [Event.listReaders hContext lpmszReaderGroups m.1]
      let block := writeBytes (zeroBlock dwSize) fetch.data
      if fetch.lResult = SCARD_S_SUCCESS then
        ⟨fetch.lResult, m.1, block, t3⟩
      else
        ⟨fetch.lResult, 0, block, (SCFree env t3 m.1 h).2⟩

/-- Model of `SCListCards`; see `SCListReaders` for the conventions. -/
def SCListCards (env : Env) (hContext lpszATR : Nat) (_out0 : Nat) : QueryResult :=
  -- * lplpmszCardNames = NULL;
  let probe := env.SCardListCards [] hContext lpszATR 0 0
  let t1 := [Event.listCards hContext lpszATR 0]
  if probe.lResult ≠ SCARD_S_SUCCESS then
    ⟨probe.lResult, 0, [], t1⟩
  else
    let dwCards := probe.cch % 2 ^ 32
    let dwSize := (dwCards * env.tcharSize) % 2 ^ 32
    let m := SCMalloc env t1 dwSize
    if h : m.1 = 0 then
      ⟨ERROR_OUTOFMEMORY, 0, [], m.2⟩
    else
      let fetch := env.SCardListCards m.2 hContext lpszATR m.1 dwCards
      let t3 := m.2 ++ [Event.listCards hContext lpszATR m.1]
      let block := writeBytes (zeroBlock dwSize) fetch.data
      if fetch.lResult = SCARD_S_SUCCESS then
        ⟨fetch.lResult, m.1, block, t3⟩
      else
        ⟨fetch.lResult, 0, block, (SCFree env t3 m.1 h).2⟩

/-- Model of `SCListGroups`; see `SCListReaders` for the conventions. -/
def SCListGroups (env : Env) (hContext : Nat) (_out0 : Nat) : QueryResult :=
  -- * lplpmszGroupNames = NULL;
  let probe := env.SCardListReaderGroups [] hContext 0 0
  let t1 := [Event.listReaderGroups hContext 0]
  if probe.lResult ≠ SCARD_S_SUCCESS then
    ⟨probe.lResult, 0, [], t1⟩
  else
    let dwGroups := probe.cch % 2 ^ 32
    let dwSize := (dwGroups * env.tcharSize) % 2 ^ 32
    let m := SCMalloc env t1 dwSize
    if h : m.1 = 0 then
      ⟨ERROR_OUTOFMEMORY, 0, [], m.2⟩
    else
      let fetch := env.SCardListReaderGroups m.2 hContext m.1 dwGroups
      let t3 := m.2 ++ [Event.listReaderGroups hContext m.1]
      let block := writeBytes (zeroBlock dwSize) fetch.data
      if fetch.lResult = SCARD_S_SUCCESS then
        ⟨fetch.lResult, m.1, block, t3⟩
      else
        ⟨fetch.lResult, 0, block, (SCFree env t3 m.1 h).2⟩

/-- Model of `SCGetAttrib`; see `SCListReaders` for the conventions.  The block
is `dwAttrLen` bytes. -/
def SCGetAttrib (env : Env) (hCard dwAttrId : Nat) (_out0 : Nat) : QueryResult :=
  -- * lplpbAttr = NULL;
  let probe := env.SCardGetAttrib [] hCard dwAttrId 0 0
  let t1 := [Event.getAttrib hCard dwAttrId 0]
  if probe.lResult ≠ SCARD_S_SUCCESS then
    ⟨probe.lResult, 0, [], t1⟩
  else
    let dwAttrLen := probe.cch % 2 ^ 32
    let m := SCMalloc env t1 dwAttrLen
    if h : m.1 = 0 then
      ⟨ERROR_OUTOFMEMORY, 0, [], m.2⟩
    else
      let fetch := env.SCardGetAttrib m.2 hCard dwAttrId m.1 dwAttrLen
      let t3 := m.2 ++ [Event.getAttrib hCard dwAttrId m.1]
      let block := writeBytes (zeroBlock dwAttrLen) fetch.data
      if fetch.lResult = SCARD_S_SUCCESS then
        ⟨fetch.lResult, m.1, block, t3⟩
      else
        ⟨fetch.lResult, 0, block, (SCFree env t3 m.1 h).2⟩

/-! ## SCGetResponse -/

/-- Model of `SCGetResponse`.  `out0` is the pointer the output parameter holds
on entry; the range check returns before the output parameter is written.  In
the two card-error branches the source calls `SCFree(lpbResponse)` first and
reads the status bytes from `lpbResponse` afterwards: the bytes read are those
the allocator left in the released block. -/
def SCGetResponse (env : Env) (hCard dwLength : Nat) (out0 : Nat) : QueryResult :=
  if dwLength > 256 then
    ⟨SCARD_E_INVALID_PARAMETER, out0, [], []⟩
  else
    -- *lplpbResponse = NULL;
    let m := SCMalloc env [] ((dwLength + 2) % 2 ^ 32)
    if h : m.1 = 0 then
      ⟨ERROR_OUTOFMEMORY, 0, [], m.2⟩
    else
      let cap := (dwLength + 2) % 2 ^ 32
      let apdu := [0xc0, 0xc0, 0x00, 0x00, dwLength % 256]
      let reply := env.SCardTransmit m.2 hCard apdu cap
      let t2 := m.2 ++ [Event.transmit hCard apdu cap]
      let lpbResponse := writeBytes (zeroBlock ((dwLength + 2) % 2 ^ 32)) reply.data
      let dwStatusLen := reply.data.length
      if reply.lResult = SCARD_S_SUCCESS then
        if dwStatusLen = (dwLength + 2) % 2 ^ 32 then
          if byteAt lpbResponse dwLength = 0x90 ∧
              byteAt lpbResponse ((dwLength + 1) % 2 ^ 32) = 0x00 then
            ⟨reply.lResult, m.1, lpbResponse, t2⟩
          else
            -- SCFree(lpbResponse); then lpbResponse[dwLength + 1], lpbResponse[dwLength]
            let t3 := (SCFree env t2 m.1 h).2
            let released := env.releasedBytes t3 m.1 lpbResponse
            ⟨MAKELONG (MAKEWORD (byteAt released ((dwLength + 1) % 2 ^ 32))
                (byteAt released dwLength)) 0x000,
              0, released, t3⟩
        else
          -- SCFree(lpbResponse); then lpbResponse[1], lpbResponse[0]
          let t3 := (SCFree env t2 m.1 h).2
          let released := env.releasedBytes t3 m.1 lpbResponse
          ⟨MAKELONG (MAKEWORD (byteAt released 1) (byteAt released 0)) 0x000,
            0, released, t3⟩
      else
        ⟨reply.lResult, 0, lpbResponse, (SCFree env t2 m.1 h).2⟩

/-! ## SCSelectFile -/

/-- Result of a SELECT FILE attempt. -/
structure SelectResult where
  /-- The returned `LONG`; `none` when `assert(dwStatusLength == sizeof(status))`
  fails, in which case the call does not return. -/
  lResult : Option Int
  /-- The value held by `*lpdwExtraBytes`. -/
  dwExtraBytes : Nat
  /-- The primitive calls made so far, in order. -/
  trace : List Event
  deriving DecidableEq, Repr

/-- Model of the internal `scSelectFile`.  `hist` is the trace before the call;
`f0`, `f1` are the bytes `lpbFileName[0]`, `lpbFileName[1]`.  The two-byte
array `status` is written by the transmit; once the assertion on the received
length holds it is exactly the received bytes. -/
def scSelectFile (env : Env) (hist : List Event) (hCard dwClassCode f0 f1 : Nat) :
    SelectResult :=
  -- *lpdwExtraBytes = 0;
  let dwStatusLength := 2
  let apdu := [dwClassCode % 256, 0xa4, 0x00, 0x00, 0x02, f0, f1]
  let reply := env.SCardTransmit hist hCard apdu dwStatusLength
  let t1 := hist ++ [Event.transmit hCard apdu dwStatusLength]
  if reply.data.length ≠ 2 then
    ⟨none, 0, t1⟩
  else
    let status := reply.data.map (· % 256)
    if reply.lResult = SCARD_S_SUCCESS then
      if ¬ (byteAt status 0 = 0x90 ∧ byteAt status 1 = 0x00) then
        if byteAt status 0 = 0x61 then
          ⟨some reply.lResult, byteAt status 1, t1⟩
        else
          ⟨some (MAKELONG (MAKEWORD (byteAt status 1) (byteAt status 0)) 0x0000), 0, t1⟩
      else
        ⟨some reply.lResult, 0, t1⟩
    else
      ⟨some reply.lResult, 0, t1⟩

/-- Model of `SCSelectFile`: class byte `0xC0` first, class byte `0x00` when the
first attempt returns `0x6e00`. -/
def SCSelectFile (env : Env) (hCard f0 f1 : Nat) : SelectResult :=
  let r := scSelectFile env [] hCard 0xC0 f0 f1
  if r.lResult = some 0x6e00 then
    scSelectFile env r.trace hCard 0x00 f0 f1
  else
    r

/-! ## Observations on traces and results -/

/-- The command APDU and receive capacity of every transmit in a trace, in order. -/
def transmits : List Event → List (List Nat × Nat)
  | [] => []
  | Event.transmit _ apdu cap :: t => (apdu, cap) :: transmits t
  | _ :: t => transmits t

/-- The non-null blocks a trace allocated and did not pass to `HeapFree`
afterwards, most recent first. -/
def liveBlocks : List Event → List Nat → List Nat
  | [], acc => acc
  | Event.heapAlloc _ p :: t, acc => liveBlocks t (if p = 0 then acc else p :: acc)
  | Event.heapFree p :: t, acc => liveBlocks t (acc.erase p)
  | _ :: t, acc => liveBlocks t acc

/-- The output invariant of the allocation-returning functions: either the
result is the success code, the output is a non-null pointer and it is the one
block the call allocated and did not free; or the result is a failure code,
every block the call allocated has been freed, and the output is null. -/
def OutputInvariant (r : QueryResult) : Prop :=
  (r.lResult = SCARD_S_SUCCESS ∧ r.out ≠ 0 ∧ liveBlocks r.trace [] = [r.out]) ∨
  (r.lResult ≠ SCARD_S_SUCCESS ∧ liveBlocks r.trace [] = [] ∧ r.out = 0)

instance (r : QueryResult) : Decidable (OutputInvariant r) := by
  unfold OutputInvariant; infer_instance

/-! ## Concrete platforms used to evaluate the model -/

/-- The fill `EE FE EE FE ...` (the 16-bit pattern `0xFEEE`) over the length of
a block: what a debugging heap leaves in a released block. -/
def feeeFill (blk : List Nat) : List Nat :=
  (List.range blk.length).map fun i => if i % 2 = 0 then 0xEE else 0xFE

/-- A platform whose allocator returns the block `0x1000` and leaves
`scrub blk` in a released block that held `blk`, whose queries report the
length 4 and the bytes `1, 2, 3, 4`, and whose card answers every command with
`answer apdu`. -/
def heapEnv (scrub : List Nat → List Nat) (answer : List Nat → TransmitReply) : Env where
  tcharSize := 1
  HeapAlloc := fun _ _ => 0x1000
  HeapFree := fun _ _ => true
  releasedBytes := fun _ _ blk => scrub blk
  GetLastError := fun _ => 0
  SCardListReaders := fun _ _ _ _ _ => ⟨0, 4, [1, 2, 3, 4]⟩
  SCardListCards := fun _ _ _ _ _ => ⟨0, 4, [1, 2, 3, 4]⟩
  SCardListReaderGroups := fun _ _ _ _ => ⟨0, 4, [1, 2, 3, 4]⟩
  SCardGetAttrib := fun _ _ _ _ _ => ⟨0, 4, [1, 2, 3, 4]⟩
  SCardTransmit := fun _ _ apdu _ => answer apdu

/-- The platform `heapEnv` whose allocator fills a released block with the
pattern `0xFEEE`. -/
def cardEnv (answer : List Nat → TransmitReply) : Env :=
  heapEnv feeeFill answer

/-- A platform whose queries answer the probe (null buffer) with `probe` and
the fetch with `fetch`; the allocator returns the block `0x1000` and fills a
released block with the pattern `0xFEEE`. -/
def queryEnv (probe fetch : PrimReply) : Env where
  tcharSize := 2
  HeapAlloc := fun _ _ => 0x1000
  HeapFree := fun _ _ => true
  releasedBytes := fun _ _ blk => feeeFill blk
  GetLastError := fun _ => 0
  SCardListReaders := fun _ _ _ buf _ => if buf = 0 then probe else fetch
  SCardListCards := fun _ _ _ buf _ => if buf = 0 then probe else fetch
  SCardListReaderGroups := fun _ _ buf _ => if buf = 0 then probe else fetch
  SCardGetAttrib := fun _ _ _ buf _ => if buf = 0 then probe else fetch
  SCardTransmit := fun _ _ _ _ => ⟨0, [0x90, 0x00]⟩

/-- A card that answers `6E 00` to a command of class `0xC0` and `90 00` to any
other command. -/
def classCard (apdu : List Nat) : TransmitReply :=
  if apdu.head? = some 0xC0 then ⟨0, [0x6E, 0x00]⟩ else ⟨0, [0x90, 0x00]⟩

/-- A card that answers `6E 00` to a command of class `0xC0` and `61 xx` to any
other command. -/
def classCard61 (xx : Nat) (apdu : List Nat) : TransmitReply :=
  if apdu.head? = some 0xC0 then ⟨0, [0x6E, 0x00]⟩ else ⟨0, [0x61, xx]⟩

/-! ## Arithmetic of the status-word code -/

theorem MAKEWORD_eq (a b : Nat) (ha : a < 256) (hb : b < 256) :
    MAKEWORD a b = b * 256 + a := by
  unfold MAKEWORD
  rw [Nat.mod_eq_of_lt ha, Nat.mod_eq_of_lt hb, Nat.shiftLeft_eq, Nat.lor_comm]
  have h := @Nat.mul_add_lt_is_or 8 a (by simpa using ha) b
  have e : b * 2 ^ 8 = 2 ^ 8 * b := Nat.mul_comm _ _
  rw [e, ← h]; omega

theorem shift_or_eq (hi lo : Nat) (hlo : lo < 256) :
    (hi <<< 8) ||| lo = hi * 256 + lo := by
  rw [Nat.shiftLeft_eq]
  have h := @Nat.mul_add_lt_is_or 8 lo (by simpa using hlo) hi
  have e : hi * 2 ^ 8 = 2 ^ 8 * hi := Nat.mul_comm _ _
  rw [e, ← h]; omega

theorem MAKELONG_zero_high (w : Nat) (hw : w < 65536) : MAKELONG w 0 = (w : Int) := by
  unfold MAKELONG toLONG
  have h1 : (w % 65536 ||| (0 % 65536) <<< 16) = w := by
    simp [Nat.mod_eq_of_lt hw]
  rw [h1]
  have h2 : w % 2 ^ 32 = w := Nat.mod_eq_of_lt (by omega)
  rw [h2, if_pos (by omega)]

/-- The code the card-error branches return for the status bytes `sw1`, `sw2`. -/
theorem statusCode_eq (sw1 sw2 : Nat) (h1 : sw1 < 256) (h2 : sw2 < 256) :
    MAKELONG (MAKEWORD sw2 sw1) 0 = ((sw1 * 256 + sw2 : Nat) : Int) := by
  rw [MAKEWORD_eq sw2 sw1 h2 h1]
  exact MAKELONG_zero_high _ (by omega)

/-! ## Buffers -/

theorem zeroBlock_length (k : Nat) : (zeroBlock k).length = k := by
  simp [zeroBlock]

/-- A reply that fills the buffer exactly, made of bytes, is what the buffer holds. -/
theorem writeBytes_exact (buf data : List Nat) (hlen : data.length = buf.length)
    (hb : ∀ b ∈ data, b < 256) : writeBytes buf data = data := by
  have hmap : data.map (· % 256) = data := by
    conv_rhs => rw [← List.map_id data]
    apply List.map_congr_left
    intro b hbm
    simpa using Nat.mod_eq_of_lt (hb b hbm)
  unfold writeBytes
  rw [hmap, ← hlen, List.take_length, hlen, List.drop_length, List.append_nil]

/-! ## SCFree and SCGetResponse, unfolded -/

theorem SCFree_trace (env : Env) (hist : List Event) (p : Nat) (h : p ≠ 0) :
    (SCFree env hist p h).2 = hist ++ [Event.heapFree p] := by
  unfold SCFree
  split <;> rfl

/-- The body of `SCGetResponse` past the range check and the allocation: `p` is
the block, `reply` the answer of the transmit, `buf` the block after the
transmit and `rel` what the block reads as after its release. -/
theorem SCGetResponse_allocated (env : Env) (hCard n out0 : Nat) (hn : n ≤ 256)
    (p : Nat) (hp0 : env.HeapAlloc [] (n + 2) = p) (hp : p ≠ 0)
    (reply : TransmitReply)
    (hr : env.SCardTransmit [Event.heapAlloc (n + 2) p] hCard
      [0xc0, 0xc0, 0x00, 0x00, n % 256] (n + 2) = reply)
    (buf : List Nat) (hbuf : writeBytes (zeroBlock (n + 2)) reply.data = buf)
    (rel : List Nat)
    (hrel : env.releasedBytes
      [Event.heapAlloc (n + 2) p,
        Event.transmit hCard [0xc0, 0xc0, 0x00, 0x00, n % 256] (n + 2),
        Event.heapFree p] p buf = rel) :
    SCGetResponse env hCard n out0 =
      (if reply.lResult = SCARD_S_SUCCESS then
        if reply.data.length = n + 2 then
          if byteAt buf n = 0x90 ∧ byteAt buf (n + 1) = 0x00 then
            ⟨SCARD_S_SUCCESS, p, buf,
              [Event.heapAlloc (n + 2) p,
                Event.transmit hCard [0xc0, 0xc0, 0x00, 0x00, n % 256] (n + 2)]⟩
          else
            ⟨MAKELONG (MAKEWORD (byteAt rel (n + 1)) (byteAt rel n)) 0, 0, rel,
              [Event.heapAlloc (n + 2) p,
                Event.transmit hCard [0xc0, 0xc0, 0x00, 0x00, n % 256] (n + 2),
                Event.heapFree p]⟩
        else
          ⟨MAKELONG (MAKEWORD (byteAt rel 1) (byteAt rel 0)) 0, 0, rel,
            [Event.heapAlloc (n + 2) p,
              Event.transmit hCard [0xc0, 0xc0, 0x00, 0x00, n % 256] (n + 2),
              Event.heapFree p]⟩
      else
        ⟨reply.lResult, 0, buf,
          [Event.heapAlloc (n + 2) p,
            Event.transmit hCard [0xc0, 0xc0, 0x00, 0x00, n % 256] (n + 2),
            Event.heapFree p]⟩) := by
  subst hp0 hr hbuf hrel
  have h1 : (n + 2) % 2 ^ 32 = n + 2 := Nat.mod_eq_of_lt (by omega)
  have h2 : (n + 1) % 2 ^ 32 = n + 1 := Nat.mod_eq_of_lt (by omega)
  have h3 : ¬ n > 256 := by omega
  unfold SCGetResponse
  simp only [h3, if_false, SCMalloc, h1, h2, hp, dite_false, SCFree_trace, List.nil_append,
    List.cons_append, List.append_assoc]
  by_cases hr : (env.SCardTransmit [Event.heapAlloc (n + 2) (env.HeapAlloc [] (n + 2))] hCard
      [0xc0, 0xc0, 0x00, 0x00, n % 256] (n + 2)).lResult = SCARD_S_SUCCESS
  · simp only [hr, if_true]
  · simp only [hr, if_false]

/-! ## SCGetResponse: range check, APDU, success path -/

/-- C5: for every requested length `n > 256`, `SCGetResponse` returns
`SCARD_E_INVALID_PARAMETER` (which is not the success code) with an empty trace:
no allocation and no transmit.  For every `n ≤ 256` the call does not return at
the check: its first primitive call is the allocation of `n + 2` bytes. -/
theorem SCGetResponse_range_check (env : Env) (hCard n out0 : Nat) :
    (256 < n →
      (SCGetResponse env hCard n out0).lResult = SCARD_E_INVALID_PARAMETER ∧
      SCARD_E_INVALID_PARAMETER ≠ SCARD_S_SUCCESS ∧
      (SCGetResponse env hCard n out0).trace = []) ∧
    (n ≤ 256 →
      (SCGetResponse env hCard n out0).trace.head? =
        some (Event.heapAlloc (n + 2) (env.HeapAlloc [] (n + 2)))) := by
  constructor
  · intro h
    have h3 : n > 256 := h
    unfold SCGetResponse
    simp only [h3, if_true]
    exact ⟨trivial, by decide, trivial⟩
  · intro hn
    by_cases hp : env.HeapAlloc [] (n + 2) = 0
    · have h1 : (n + 2) % 2 ^ 32 = n + 2 := Nat.mod_eq_of_lt (by omega)
      have h3 : ¬ n > 256 := by omega
      unfold SCGetResponse
      simp only [h3, if_false, SCMalloc, h1, hp, dite_true, List.nil_append, List.head?_cons]
    · rw [SCGetResponse_allocated env hCard n out0 hn _ rfl hp _ rfl _ rfl _ rfl]
      split_ifs <;> rfl

/-- Witness for C5 at `n = 257` and at `n = 256`. -/
theorem SCGetResponse_range_check_witness :
    (256 < 257 ∧
      (SCGetResponse (cardEnv fun _ => ⟨0, [0x90, 0x00]⟩) 1 257 0).trace = []) ∧
    (256 ≤ 256 ∧
      (SCGetResponse (cardEnv fun _ => ⟨0, [0x90, 0x00]⟩) 1 256 0).trace.head? =
        some (Event.heapAlloc 258 0x1000)) :=
  ⟨⟨by decide,
      ((SCGetResponse_range_check (cardEnv fun _ => ⟨0, [0x90, 0x00]⟩) 1 257 0).1
        (by decide)).2.2⟩,
    ⟨by decide,
      (SCGetResponse_range_check (cardEnv fun _ => ⟨0, [0x90, 0x00]⟩) 1 256 0).2
        (by decide)⟩⟩

/-- C6: for every `n ≤ 256` for which the allocation succeeds, the trace holds
exactly one transmit; its command is `[0xC0, 0xC0, 0x00, 0x00, n mod 256]` and
its receive capacity is `n + 2`.  At `n = 256` the length byte is `0x00`. -/
theorem SCGetResponse_apdu (env : Env) (hCard n out0 : Nat) (hn : n ≤ 256)
    (hp : env.HeapAlloc [] (n + 2) ≠ 0) :
    transmits (SCGetResponse env hCard n out0).trace =
        [([0xC0, 0xC0, 0x00, 0x00, n % 256], n + 2)] ∧
    (n = 256 → transmits (SCGetResponse env hCard n out0).trace =
        [([0xC0, 0xC0, 0x00, 0x00, 0x00], 258)]) := by
  have key : transmits (SCGetResponse env hCard n out0).trace =
      [([0xC0, 0xC0, 0x00, 0x00, n % 256], n + 2)] := by
    rw [SCGetResponse_allocated env hCard n out0 hn _ rfl hp _ rfl _ rfl _ rfl]
    split_ifs <;> rfl
  refine ⟨key, ?_⟩
  intro h
  rw [key, h]

/-- Witness for C6 at `n = 256`. -/
theorem SCGetResponse_apdu_witness :
    256 ≤ 256 ∧ (cardEnv fun _ => ⟨0, [0x6A, 0x82]⟩).HeapAlloc [] (256 + 2) ≠ 0 ∧
    transmits (SCGetResponse (cardEnv fun _ => ⟨0, [0x6A, 0x82]⟩) 1 256 0).trace =
      [([0xC0, 0xC0, 0x00, 0x00, 256 % 256], 256 + 2)] :=
  ⟨by decide, by decide,
    (SCGetResponse_apdu (cardEnv fun _ => ⟨0, [0x6A, 0x82]⟩) 1 256 0 (by decide)
      (by decide)).1⟩

/-- C7: for every `n ≤ 256`, if the allocation succeeds and the transmit
succeeds with exactly `n + 2` bytes whose last two are `90 00`, then
`SCGetResponse` returns success, the output is the allocated (non-null) block,
the block holds exactly the `n + 2` bytes the transport returned, status word
included, and the block is not released. -/
theorem SCGetResponse_success (env : Env) (hCard n out0 : Nat) (data : List Nat)
    (hn : n ≤ 256) (hp : env.HeapAlloc [] (n + 2) ≠ 0)
    (hreply : env.SCardTransmit [Event.heapAlloc (n + 2) (env.HeapAlloc [] (n + 2))] hCard
        [0xC0, 0xC0, 0x00, 0x00, n % 256] (n + 2) = ⟨SCARD_S_SUCCESS, data⟩)
    (hlen : data.length = n + 2) (hb : ∀ b ∈ data, b < 256)
    (h90 : data.getD n 0 = 0x90) (h00 : data.getD (n + 1) 0 = 0x00) :
    SCGetResponse env hCard n out0 =
        ⟨SCARD_S_SUCCESS, env.HeapAlloc [] (n + 2), data,
          [Event.heapAlloc (n + 2) (env.HeapAlloc [] (n + 2)),
            Event.transmit hCard [0xC0, 0xC0, 0x00, 0x00, n % 256] (n + 2)]⟩ ∧
    (SCGetResponse env hCard n out0).out ≠ 0 ∧
    (SCGetResponse env hCard n out0).block.length = n + 2 ∧
    liveBlocks (SCGetResponse env hCard n out0).trace [] =
      [(SCGetResponse env hCard n out0).out] := by
  have hw : writeBytes (zeroBlock (n + 2)) data = data :=
    writeBytes_exact _ _ (by rw [zeroBlock_length, hlen]) hb
  have key : SCGetResponse env hCard n out0 =
      ⟨SCARD_S_SUCCESS, env.HeapAlloc [] (n + 2), data,
        [Event.heapAlloc (n + 2) (env.HeapAlloc [] (n + 2)),
          Event.transmit hCard [0xC0, 0xC0, 0x00, 0x00, n % 256] (n + 2)]⟩ := by
    rw [SCGetResponse_allocated env hCard n out0 hn _ rfl hp _ hreply _ hw _ rfl]
    simp only [hlen, byteAt, h90, h00, if_true, and_self]
  rw [key]
  refine ⟨rfl, hp, hlen, ?_⟩
  simp only [liveBlocks, hp, if_false]

/-- Witness for C7 at `n = 3` with the reply `01 02 03 90 00`. -/
theorem SCGetResponse_success_witness :
    SCGetResponse (cardEnv fun _ => ⟨0, [1, 2, 3, 0x90, 0x00]⟩) 1 3 0 =
      ⟨SCARD_S_SUCCESS, 0x1000, [1, 2, 3, 0x90, 0x00],
        [Event.heapAlloc 5 0x1000, Event.transmit 1 [0xC0, 0xC0, 0x00, 0x00, 3] 5]⟩ :=
  (SCGetResponse_success (cardEnv fun _ => ⟨0, [1, 2, 3, 0x90, 0x00]⟩) 1 3 0
    [1, 2, 3, 0x90, 0x00] (by decide) (by decide) rfl rfl (by decide) rfl rfl).1

/-! ## scSelectFile, unfolded -/

theorem scSelectFile_trace (env : Env) (hist : List Event) (hCard cls f0 f1 : Nat) :
    (scSelectFile env hist hCard cls f0 f1).trace =
      hist ++ [Event.transmit hCard [cls % 256, 0xa4, 0x00, 0x00, 0x02, f0, f1] 2] := by
  unfold scSelectFile
  dsimp only
  split_ifs <;> rfl

/-- The attempt on a two-byte reply `s0 s1` with transmit code `code`. -/
theorem scSelectFile_reply (env : Env) (hist : List Event) (hCard cls f0 f1 : Nat)
    (code : Int) (s0 s1 : Nat) (h0 : s0 < 256) (h1 : s1 < 256)
    (h : env.SCardTransmit hist hCard [cls % 256, 0xa4, 0x00, 0x00, 0x02, f0, f1] 2 =
      ⟨code, [s0, s1]⟩) :
    scSelectFile env hist hCard cls f0 f1 =
      (if code = SCARD_S_SUCCESS then
        if ¬ (s0 = 0x90 ∧ s1 = 0x00) then
          if s0 = 0x61 then
            ⟨some code, s1, hist ++ [Event.transmit hCard [cls % 256, 0xa4, 0, 0, 2, f0, f1] 2]⟩
          else
            ⟨some (MAKELONG (MAKEWORD s1 s0) 0), 0,
              hist ++ [Event.transmit hCard [cls % 256, 0xa4, 0, 0, 2, f0, f1] 2]⟩
        else
          ⟨some code, 0, hist ++ [Event.transmit hCard [cls % 256, 0xa4, 0, 0, 2, f0, f1] 2]⟩
      else
        ⟨some code, 0,
          hist ++ [Event.transmit hCard [cls % 256, 0xa4, 0, 0, 2, f0, f1] 2]⟩) := by
  unfold scSelectFile
  simp only [h, List.length_cons, List.length_nil, List.map_cons, List.map_nil, byteAt,
    Nat.mod_eq_of_lt h0, Nat.mod_eq_of_lt h1, List.getD_cons_zero, List.getD_cons_succ,
    ne_eq, not_true_eq_false, if_false]

/-! ## The status-word code -/

/-- C1: as the code has it, a status word `sw1 sw2` reported as a card-level
error by a `scSelectFile` attempt (transmit succeeded, status other than
`90 00`, `sw1` other than `0x61`) gives the result code `(sw1 << 8) | sw2`,
that is `sw1 * 256 + sw2`, below `2 ^ 16`: SW1 is the high byte of the low
word, SW2 the low byte, the high word is zero.  In particular `6A 82` gives
`0x6A82`.  (The code `SCGetResponse` returns on its card-error paths is read
from the block after its release and is not part of this statement.) -/
theorem statusWord_code (env : Env) (hist : List Event) (hCard cls f0 f1 sw1 sw2 : Nat)
    (h1 : sw1 < 256) (h2 : sw2 < 256) (hne : ¬ (sw1 = 0x90 ∧ sw2 = 0x00))
    (h61 : sw1 ≠ 0x61)
    (hreply : env.SCardTransmit hist hCard [cls % 256, 0xA4, 0x00, 0x00, 0x02, f0, f1] 2 =
        ⟨SCARD_S_SUCCESS, [sw1, sw2]⟩) :
    (scSelectFile env hist hCard cls f0 f1).lResult =
        some (((sw1 <<< 8) ||| sw2 : Nat) : Int) ∧
    (sw1 <<< 8) ||| sw2 = sw1 * 256 + sw2 ∧
    (sw1 <<< 8) ||| sw2 < 2 ^ 16 ∧
    (sw1 = 0x6A → sw2 = 0x82 →
      (scSelectFile env hist hCard cls f0 f1).lResult = some 0x6A82) := by
  have hs : (sw1 <<< 8) ||| sw2 = sw1 * 256 + sw2 := shift_or_eq sw1 sw2 h2
  have key : (scSelectFile env hist hCard cls f0 f1).lResult =
      some (((sw1 <<< 8) ||| sw2 : Nat) : Int) := by
    rw [scSelectFile_reply env hist hCard cls f0 f1 SCARD_S_SUCCESS sw1 sw2 h1 h2 hreply]
    simp only [if_true, hne, not_false_eq_true, h61, if_false]
    rw [statusCode_eq sw1 sw2 h1 h2, hs]
  refine ⟨key, hs, by rw [hs]; omega, ?_⟩
  intro a b
  rw [key, hs, a, b]
  rfl

/-- Witness for C1 (as the code has it) at the status word `6A 82`. -/
theorem statusWord_code_witness :
    (scSelectFile (cardEnv fun _ => ⟨0, [0x6A, 0x82]⟩) [] 1 0xC0 0x3F 0x00).lResult =
        some (((0x6A <<< 8) ||| 0x82 : Nat) : Int) ∧
    (scSelectFile (cardEnv fun _ => ⟨0, [0x6A, 0x82]⟩) [] 1 0xC0 0x3F 0x00).lResult =
        some 0x6A82 :=
  have h := statusWord_code (cardEnv fun _ => ⟨0, [0x6A, 0x82]⟩) [] 1 0xC0 0x3F 0x00
    0x6A 0x82 (by decide) (by decide) (by decide) (by decide) rfl
  ⟨h.1, h.2.2.2 rfl rfl⟩

/-- Counterexample to C1 as stated: on the status word `6A 82` a `scSelectFile`
attempt returns `0x6A82`, not `(0x82 << 8) | 0x6A = 0x826A`. -/
theorem claimed_packing_fails_at_6A82 :
    (cardEnv fun _ => ⟨0, [0x6A, 0x82]⟩).SCardTransmit [] 1
      [0xC0, 0xA4, 0x00, 0x00, 0x02, 0x3F, 0x00] 2 = ⟨SCARD_S_SUCCESS, [0x6A, 0x82]⟩ ∧
    (scSelectFile (cardEnv fun _ => ⟨0, [0x6A, 0x82]⟩) [] 1 0xC0 0x3F 0x00).lResult =
        some 0x6A82 ∧
    ¬ ((scSelectFile (cardEnv fun _ => ⟨0, [0x6A, 0x82]⟩) [] 1 0xC0 0x3F 0x00).lResult =
        some (((0x82 <<< 8) ||| 0x6A : Nat) : Int)) := by
  decide

/-! ## SCGetResponse: the short-reply path -/

/-- On the short-reply path the trace ends with the release of the block, the
output is null, and the result code is built from the bytes the released block
reads as at positions 1 and 0. -/
theorem SCGetResponse_short_reply_path (env : Env) (hCard n out0 : Nat) (hn : n ≤ 256)
    (p : Nat) (hp0 : env.HeapAlloc [] (n + 2) = p) (hp : p ≠ 0)
    (reply : TransmitReply)
    (hr : env.SCardTransmit [Event.heapAlloc (n + 2) p] hCard
      [0xC0, 0xC0, 0x00, 0x00, n % 256] (n + 2) = reply)
    (hok : reply.lResult = SCARD_S_SUCCESS) (hlen : reply.data.length ≠ n + 2)
    (rel : List Nat)
    (hrel : env.releasedBytes
      [Event.heapAlloc (n + 2) p,
        Event.transmit hCard [0xC0, 0xC0, 0x00, 0x00, n % 256] (n + 2),
        Event.heapFree p] p (writeBytes (zeroBlock (n + 2)) reply.data) = rel) :
    SCGetResponse env hCard n out0 =
      ⟨MAKELONG (MAKEWORD (byteAt rel 1) (byteAt rel 0)) 0, 0, rel,
        [Event.heapAlloc (n + 2) p,
          Event.transmit hCard [0xC0, 0xC0, 0x00, 0x00, n % 256] (n + 2),
          Event.heapFree p]⟩ := by
  rw [SCGetResponse_allocated env hCard n out0 hn p hp0 hp reply hr _ rfl rel hrel]
  simp only [hok, if_true, hlen, if_false]

/-- C8, evaluated where the code departs from it: a request for 5 bytes, a
successful transmit whose reply is the two bytes `6A 82`.  The block is passed
to `HeapFree` before the status bytes are read from it.  On a heap that fills
released blocks with `0xFEEE` the call returns `0xEEFE`, not the code `0x6A82`
of the reply's status word; on a heap that zeroes released blocks it returns
the success code.  In both cases the block is released and the output is
null. -/
theorem short_reply_code_read_after_free :
    ((cardEnv fun _ => ⟨0, [0x6A, 0x82]⟩).SCardTransmit [Event.heapAlloc 7 0x1000] 1
        [0xC0, 0xC0, 0x00, 0x00, 5] 7 = ⟨SCARD_S_SUCCESS, [0x6A, 0x82]⟩ ∧
      [0x6A, 0x82].length ≠ 5 + 2) ∧
    (SCGetResponse (cardEnv fun _ => ⟨0, [0x6A, 0x82]⟩) 1 5 0 =
        ⟨0xEEFE, 0, [0xEE, 0xFE, 0xEE, 0xFE, 0xEE, 0xFE, 0xEE],
          [Event.heapAlloc 7 0x1000, Event.transmit 1 [0xC0, 0xC0, 0x00, 0x00, 5] 7,
            Event.heapFree 0x1000]⟩ ∧
      (SCGetResponse (cardEnv fun _ => ⟨0, [0x6A, 0x82]⟩) 1 5 0).lResult ≠
        MAKELONG (MAKEWORD 0x82 0x6A) 0) ∧
    (SCGetResponse (heapEnv (fun blk => zeroBlock blk.length) fun _ => ⟨0, [0x6A, 0x82]⟩)
        1 5 0).lResult = SCARD_S_SUCCESS ∧
    (SCGetResponse (heapEnv (fun blk => zeroBlock blk.length) fun _ => ⟨0, [0x6A, 0x82]⟩)
        1 5 0).out = 0 := by
  decide

/-! ## scSelectFile by status word -/

theorem scSelectFile_9000 (env : Env) (hist : List Event) (hCard cls f0 f1 : Nat)
    (h : env.SCardTransmit hist hCard [cls % 256, 0xa4, 0x00, 0x00, 0x02, f0, f1] 2 =
      ⟨SCARD_S_SUCCESS, [0x90, 0x00]⟩) :
    scSelectFile env hist hCard cls f0 f1 =
      ⟨some SCARD_S_SUCCESS, 0,
        hist ++ [Event.transmit hCard [cls % 256, 0xa4, 0, 0, 2, f0, f1] 2]⟩ := by
  rw [scSelectFile_reply env hist hCard cls f0 f1 SCARD_S_SUCCESS 0x90 0x00
    (by decide) (by decide) h]
  simp

theorem scSelectFile_61 (env : Env) (hist : List Event) (hCard cls f0 f1 xx : Nat)
    (hxx : xx < 256)
    (h : env.SCardTransmit hist hCard [cls % 256, 0xa4, 0x00, 0x00, 0x02, f0, f1] 2 =
      ⟨SCARD_S_SUCCESS, [0x61, xx]⟩) :
    scSelectFile env hist hCard cls f0 f1 =
      ⟨some SCARD_S_SUCCESS, xx,
        hist ++ [Event.transmit hCard [cls % 256, 0xa4, 0, 0, 2, f0, f1] 2]⟩ := by
  rw [scSelectFile_reply env hist hCard cls f0 f1 SCARD_S_SUCCESS 0x61 xx
    (by decide) hxx h]
  simp

theorem scSelectFile_error (env : Env) (hist : List Event) (hCard cls f0 f1 sw1 sw2 : Nat)
    (h1 : sw1 < 256) (h2 : sw2 < 256) (hne : ¬ (sw1 = 0x90 ∧ sw2 = 0x00)) (h61 : sw1 ≠ 0x61)
    (h : env.SCardTransmit hist hCard [cls % 256, 0xa4, 0x00, 0x00, 0x02, f0, f1] 2 =
      ⟨SCARD_S_SUCCESS, [sw1, sw2]⟩) :
    scSelectFile env hist hCard cls f0 f1 =
      ⟨some ((sw1 * 256 + sw2 : Nat) : Int), 0,
        hist ++ [Event.transmit hCard [cls % 256, 0xa4, 0, 0, 2, f0, f1] 2]⟩ := by
  rw [scSelectFile_reply env hist hCard cls f0 f1 SCARD_S_SUCCESS sw1 sw2 h1 h2 h]
  simp only [if_true, hne, not_false_eq_true, h61, if_false]
  rw [statusCode_eq sw1 sw2 h1 h2]

/-! ## SCSelectFile: the class-byte fallback -/

theorem scSelectFile_first_trace (env : Env) (hCard f0 f1 : Nat) :
    (scSelectFile env [] hCard 0xC0 f0 f1).trace =
      [Event.transmit hCard [0xC0, 0xA4, 0x00, 0x00, 0x02, f0, f1] 2] := by
  rw [scSelectFile_trace]; rfl

theorem SCSelectFile_no_retry (env : Env) (hCard f0 f1 : Nat)
    (h : (scSelectFile env [] hCard 0xC0 f0 f1).lResult ≠ some 0x6E00) :
    SCSelectFile env hCard f0 f1 = scSelectFile env [] hCard 0xC0 f0 f1 := by
  unfold SCSelectFile
  simp only [h, if_false]

theorem SCSelectFile_retry (env : Env) (hCard f0 f1 : Nat)
    (h : (scSelectFile env [] hCard 0xC0 f0 f1).lResult = some 0x6E00) :
    SCSelectFile env hCard f0 f1 =
      scSelectFile env [Event.transmit hCard [0xC0, 0xA4, 0x00, 0x00, 0x02, f0, f1] 2]
        hCard 0x00 f0 f1 := by
  unfold SCSelectFile
  simp only [h, if_true, scSelectFile_first_trace]

theorem scSelectFile_second_trace (env : Env) (hCard f0 f1 : Nat) :
    (scSelectFile env [Event.transmit hCard [0xC0, 0xA4, 0x00, 0x00, 0x02, f0, f1] 2]
        hCard 0x00 f0 f1).trace =
      [Event.transmit hCard [0xC0, 0xA4, 0x00, 0x00, 0x02, f0, f1] 2,
        Event.transmit hCard [0x00, 0xA4, 0x00, 0x00, 0x02, f0, f1] 2] := by
  rw [scSelectFile_trace]; rfl

/-- C2: for every file id `f0 f1` and every platform, the first transmit carries
`[0xC0, 0xA4, 0x00, 0x00, 0x02, f0, f1]`; when the first attempt returns `0x6E00`
a second transmit carries the same APDU with class byte `0x00` and the result
is that of the second attempt; otherwise there is no second transmit and the
result is that of the first attempt; the trace never holds more than two
transmits.  A card answering `6E 00` to class `0xC0` and `90 00` to class `0x00`
gives success after exactly two transmits; a card answering `6A 82` first gives
the failure `0x6A82` after exactly one transmit. -/
theorem SCSelectFile_fallback (env : Env) (hCard f0 f1 : Nat) :
    (SCSelectFile env hCard f0 f1).trace.head? =
        some (Event.transmit hCard [0xC0, 0xA4, 0x00, 0x00, 0x02, f0, f1] 2) ∧
    ((scSelectFile env [] hCard 0xC0 f0 f1).lResult = some 0x6E00 →
      (SCSelectFile env hCard f0 f1).trace =
        [Event.transmit hCard [0xC0, 0xA4, 0x00, 0x00, 0x02, f0, f1] 2,
          Event.transmit hCard [0x00, 0xA4, 0x00, 0x00, 0x02, f0, f1] 2] ∧
      SCSelectFile env hCard f0 f1 =
        scSelectFile env [Event.transmit hCard [0xC0, 0xA4, 0x00, 0x00, 0x02, f0, f1] 2]
          hCard 0x00 f0 f1) ∧
    ((scSelectFile env [] hCard 0xC0 f0 f1).lResult ≠ some 0x6E00 →
      (SCSelectFile env hCard f0 f1).trace =
        [Event.transmit hCard [0xC0, 0xA4, 0x00, 0x00, 0x02, f0, f1] 2] ∧
      SCSelectFile env hCard f0 f1 = scSelectFile env [] hCard 0xC0 f0 f1) ∧
    (transmits (SCSelectFile env hCard f0 f1).trace).length ≤ 2 ∧
    (env.SCardTransmit [] hCard [0xC0, 0xA4, 0x00, 0x00, 0x02, f0, f1] 2 =
        ⟨SCARD_S_SUCCESS, [0x6E, 0x00]⟩ →
      env.SCardTransmit [Event.transmit hCard [0xC0, 0xA4, 0x00, 0x00, 0x02, f0, f1] 2] hCard
        [0x00, 0xA4, 0x00, 0x00, 0x02, f0, f1] 2 = ⟨SCARD_S_SUCCESS, [0x90, 0x00]⟩ →
      SCSelectFile env hCard f0 f1 =
        ⟨some SCARD_S_SUCCESS, 0,
          [Event.transmit hCard [0xC0, 0xA4, 0x00, 0x00, 0x02, f0, f1] 2,
            Event.transmit hCard [0x00, 0xA4, 0x00, 0x00, 0x02, f0, f1] 2]⟩) ∧
    (env.SCardTransmit [] hCard [0xC0, 0xA4, 0x00, 0x00, 0x02, f0, f1] 2 =
        ⟨SCARD_S_SUCCESS, [0x6A, 0x82]⟩ →
      SCSelectFile env hCard f0 f1 =
        ⟨some 0x6A82, 0, [Event.transmit hCard [0xC0, 0xA4, 0x00, 0x00, 0x02, f0, f1] 2]⟩ ∧
      (0x6A82 : Int) ≠ SCARD_S_SUCCESS) := by
  have hretry := SCSelectFile_retry env hCard f0 f1
  have hfirst := SCSelectFile_no_retry env hCard f0 f1
  have ht1 := scSelectFile_first_trace env hCard f0 f1
  have ht2 := scSelectFile_second_trace env hCard f0 f1
  refine ⟨?_, ?_, ?_, ?_, ?_, ?_⟩
  · by_cases h : (scSelectFile env [] hCard 0xC0 f0 f1).lResult = some 0x6E00
    · rw [hretry h, ht2]; rfl
    · rw [hfirst h, ht1]; rfl
  · intro h
    exact ⟨by rw [hretry h, ht2], hretry h⟩
  · intro h
    exact ⟨by rw [hfirst h, ht1], hfirst h⟩
  · by_cases h : (scSelectFile env [] hCard 0xC0 f0 f1).lResult = some 0x6E00
    · rw [hretry h, ht2]; simp [transmits]
    · rw [hfirst h, ht1]; simp [transmits]
  · intro hr1 hr2
    have a1 := scSelectFile_error env [] hCard 0xC0 f0 f1 0x6E 0x00
      (by decide) (by decide) (by decide) (by decide) hr1
    have c1 : (scSelectFile env [] hCard 0xC0 f0 f1).lResult = some 0x6E00 := by
      rw [a1]; rfl
    rw [hretry c1, scSelectFile_9000 env _ hCard 0x00 f0 f1 hr2]
    rfl
  · intro hr1
    have a1 := scSelectFile_error env [] hCard 0xC0 f0 f1 0x6A 0x82
      (by decide) (by decide) (by decide) (by decide) hr1
    have c1 : (scSelectFile env [] hCard 0xC0 f0 f1).lResult ≠ some 0x6E00 := by
      rw [a1]
      show some (((0x6A * 256 + 0x82 : Nat) : Int)) ≠ some 0x6E00
      decide
    rw [hfirst c1, a1]
    exact ⟨rfl, by decide⟩

/-- Witness for C2: the two cards of the claim. -/
theorem SCSelectFile_fallback_witness :
    (SCSelectFile (cardEnv classCard) 1 0x3F 0x00 =
        ⟨some SCARD_S_SUCCESS, 0,
          [Event.transmit 1 [0xC0, 0xA4, 0x00, 0x00, 0x02, 0x3F, 0x00] 2,
            Event.transmit 1 [0x00, 0xA4, 0x00, 0x00, 0x02, 0x3F, 0x00] 2]⟩ ∧
      SCSelectFile (cardEnv classCard) 1 0x3F 0x00 =
        scSelectFile (cardEnv classCard)
          [Event.transmit 1 [0xC0, 0xA4, 0x00, 0x00, 0x02, 0x3F, 0x00] 2] 1 0x00 0x3F 0x00) ∧
    (SCSelectFile (cardEnv fun _ => ⟨0, [0x6A, 0x82]⟩) 1 0x3F 0x00 =
        ⟨some 0x6A82, 0, [Event.transmit 1 [0xC0, 0xA4, 0x00, 0x00, 0x02, 0x3F, 0x00] 2]⟩ ∧
      SCSelectFile (cardEnv fun _ => ⟨0, [0x6A, 0x82]⟩) 1 0x3F 0x00 =
        scSelectFile (cardEnv fun _ => ⟨0, [0x6A, 0x82]⟩) [] 1 0xC0 0x3F 0x00) :=
  have h1 := SCSelectFile_fallback (cardEnv classCard) 1 0x3F 0x00
  have h2 := SCSelectFile_fallback (cardEnv fun _ => ⟨0, [0x6A, 0x82]⟩) 1 0x3F 0x00
  ⟨⟨h1.2.2.2.2.1 rfl rfl, (h1.2.1 (by decide)).2⟩,
    ⟨(h2.2.2.2.2.2 rfl).1, (h2.2.2.1 (by decide)).2⟩⟩

/-! ## SCSelectFile: success statuses and card errors -/

/-- C3: for every file id and every byte `xx`: an attempt whose transmit
succeeds with `90 00` returns success with `dwExtraBytes = 0`, one whose
transmit succeeds with `61 xx` returns success with `dwExtraBytes = xx`; so
does `SCSelectFile` when that attempt is its final one, be it the first (one
transmit, e.g. `61 05` gives 5) or the second after a first result `0x6E00`
(two transmits). -/
theorem SCSelectFile_success_statuses (env : Env) (hCard f0 f1 xx : Nat) (hxx : xx < 256) :
    (∀ hist cls,
      env.SCardTransmit hist hCard [cls % 256, 0xA4, 0x00, 0x00, 0x02, f0, f1] 2 =
          ⟨SCARD_S_SUCCESS, [0x90, 0x00]⟩ →
        (scSelectFile env hist hCard cls f0 f1).lResult = some SCARD_S_SUCCESS ∧
        (scSelectFile env hist hCard cls f0 f1).dwExtraBytes = 0) ∧
    (∀ hist cls,
      env.SCardTransmit hist hCard [cls % 256, 0xA4, 0x00, 0x00, 0x02, f0, f1] 2 =
          ⟨SCARD_S_SUCCESS, [0x61, xx]⟩ →
        (scSelectFile env hist hCard cls f0 f1).lResult = some SCARD_S_SUCCESS ∧
        (scSelectFile env hist hCard cls f0 f1).dwExtraBytes = xx) ∧
    (env.SCardTransmit [] hCard [0xC0, 0xA4, 0x00, 0x00, 0x02, f0, f1] 2 =
        ⟨SCARD_S_SUCCESS, [0x90, 0x00]⟩ →
      SCSelectFile env hCard f0 f1 =
        ⟨some SCARD_S_SUCCESS, 0,
          [Event.transmit hCard [0xC0, 0xA4, 0x00, 0x00, 0x02, f0, f1] 2]⟩) ∧
    (env.SCardTransmit [] hCard [0xC0, 0xA4, 0x00, 0x00, 0x02, f0, f1] 2 =
        ⟨SCARD_S_SUCCESS, [0x61, xx]⟩ →
      SCSelectFile env hCard f0 f1 =
        ⟨some SCARD_S_SUCCESS, xx,
          [Event.transmit hCard [0xC0, 0xA4, 0x00, 0x00, 0x02, f0, f1] 2]⟩) ∧
    ((scSelectFile env [] hCard 0xC0 f0 f1).lResult = some 0x6E00 →
      env.SCardTransmit [Event.transmit hCard [0xC0, 0xA4, 0x00, 0x00, 0x02, f0, f1] 2] hCard
        [0x00, 0xA4, 0x00, 0x00, 0x02, f0, f1] 2 = ⟨SCARD_S_SUCCESS, [0x90, 0x00]⟩ →
      SCSelectFile env hCard f0 f1 =
        ⟨some SCARD_S_SUCCESS, 0,
          [Event.transmit hCard [0xC0, 0xA4, 0x00, 0x00, 0x02, f0, f1] 2,
            Event.transmit hCard [0x00, 0xA4, 0x00, 0x00, 0x02, f0, f1] 2]⟩) ∧
    ((scSelectFile env [] hCard 0xC0 f0 f1).lResult = some 0x6E00 →
      env.SCardTransmit [Event.transmit hCard [0xC0, 0xA4, 0x00, 0x00, 0x02, f0, f1] 2] hCard
        [0x00, 0xA4, 0x00, 0x00, 0x02, f0, f1] 2 = ⟨SCARD_S_SUCCESS, [0x61, xx]⟩ →
      SCSelectFile env hCard f0 f1 =
        ⟨some SCARD_S_SUCCESS, xx,
          [Event.transmit hCard [0xC0, 0xA4, 0x00, 0x00, 0x02, f0, f1] 2,
            Event.transmit hCard [0x00, 0xA4, 0x00, 0x00, 0x02, f0, f1] 2]⟩) := by
  refine ⟨?_, ?_, ?_, ?_, ?_, ?_⟩
  · intro hist cls h
    rw [scSelectFile_9000 env hist hCard cls f0 f1 h]
    exact ⟨rfl, rfl⟩
  · intro hist cls h
    rw [scSelectFile_61 env hist hCard cls f0 f1 xx hxx h]
    exact ⟨rfl, rfl⟩
  · intro h
    have a1 := scSelectFile_9000 env [] hCard 0xC0 f0 f1 h
    have c1 : (scSelectFile env [] hCard 0xC0 f0 f1).lResult ≠ some 0x6E00 := by
      rw [a1]
      show some SCARD_S_SUCCESS ≠ some 0x6E00
      decide
    rw [SCSelectFile_no_retry env hCard f0 f1 c1, a1]
    rfl
  · intro h
    have a1 := scSelectFile_61 env [] hCard 0xC0 f0 f1 xx hxx h
    have c1 : (scSelectFile env [] hCard 0xC0 f0 f1).lResult ≠ some 0x6E00 := by
      rw [a1]
      show some SCARD_S_SUCCESS ≠ some 0x6E00
      decide
    rw [SCSelectFile_no_retry env hCard f0 f1 c1, a1]
    rfl
  · intro c1 h
    rw [SCSelectFile_retry env hCard f0 f1 c1, scSelectFile_9000 env _ hCard 0x00 f0 f1 h]
    rfl
  · intro c1 h
    rw [SCSelectFile_retry env hCard f0 f1 c1, scSelectFile_61 env _ hCard 0x00 f0 f1 xx hxx h]
    rfl

/-- Witness for C3: `90 00` and `61 05` on the first attempt, and on the second
attempt of a card that refuses class `0xC0`. -/
theorem SCSelectFile_success_statuses_witness :
    5 < 256 ∧
    ((scSelectFile (cardEnv fun _ => ⟨0, [0x90, 0x00]⟩) [] 1 0xC0 0x3F 0x00).lResult =
        some SCARD_S_SUCCESS ∧
      (scSelectFile (cardEnv fun _ => ⟨0, [0x61, 0x05]⟩) [] 1 0xC0 0x3F 0x00).dwExtraBytes =
        5) ∧
    (SCSelectFile (cardEnv fun _ => ⟨0, [0x90, 0x00]⟩) 1 0x3F 0x00 =
        ⟨some SCARD_S_SUCCESS, 0,
          [Event.transmit 1 [0xC0, 0xA4, 0x00, 0x00, 0x02, 0x3F, 0x00] 2]⟩ ∧
      SCSelectFile (cardEnv fun _ => ⟨0, [0x61, 0x05]⟩) 1 0x3F 0x00 =
        ⟨some SCARD_S_SUCCESS, 5,
          [Event.transmit 1 [0xC0, 0xA4, 0x00, 0x00, 0x02, 0x3F, 0x00] 2]⟩) ∧
    (SCSelectFile (cardEnv classCard) 1 0x3F 0x00 =
        ⟨some SCARD_S_SUCCESS, 0,
          [Event.transmit 1 [0xC0, 0xA4, 0x00, 0x00, 0x02, 0x3F, 0x00] 2,
            Event.transmit 1 [0x00, 0xA4, 0x00, 0x00, 0x02, 0x3F, 0x00] 2]⟩ ∧
      SCSelectFile (cardEnv (classCard61 5)) 1 0x3F 0x00 =
        ⟨some SCARD_S_SUCCESS, 5,
          [Event.transmit 1 [0xC0, 0xA4, 0x00, 0x00, 0x02, 0x3F, 0x00] 2,
            Event.transmit 1 [0x00, 0xA4, 0x00, 0x00, 0x02, 0x3F, 0x00] 2]⟩) :=
  have h90 := SCSelectFile_success_statuses (cardEnv fun _ => ⟨0, [0x90, 0x00]⟩) 1 0x3F 0x00 5
    (by decide)
  have h61 := SCSelectFile_success_statuses (cardEnv fun _ => ⟨0, [0x61, 0x05]⟩) 1 0x3F 0x00 5
    (by decide)
  have hc := SCSelectFile_success_statuses (cardEnv classCard) 1 0x3F 0x00 5 (by decide)
  have hc61 := SCSelectFile_success_statuses (cardEnv (classCard61 5)) 1 0x3F 0x00 5
    (by decide)
  ⟨by decide, ⟨(h90.1 [] 0xC0 rfl).1, (h61.2.1 [] 0xC0 rfl).2⟩,
    ⟨h90.2.2.1 rfl, h61.2.2.2.1 rfl⟩,
    ⟨hc.2.2.2.2.1 (by decide) rfl, hc61.2.2.2.2.2 (by decide) rfl⟩⟩

/-- C4: as the code has it, for every status word `sw1 sw2` that is neither
`90 00` nor of the form `61 xx`, an attempt whose transmit succeeds with that
status returns the code `sw1 * 256 + sw2` with `dwExtraBytes = 0`; the code
differs from the success code exactly when the status word is not `00 00`. -/
theorem scSelectFile_card_error (env : Env) (hist : List Event)
    (hCard cls f0 f1 sw1 sw2 : Nat) (h1 : sw1 < 256) (h2 : sw2 < 256)
    (hne : ¬ (sw1 = 0x90 ∧ sw2 = 0x00)) (h61 : sw1 ≠ 0x61)
    (h : env.SCardTransmit hist hCard [cls % 256, 0xA4, 0x00, 0x00, 0x02, f0, f1] 2 =
      ⟨SCARD_S_SUCCESS, [sw1, sw2]⟩) :
    (scSelectFile env hist hCard cls f0 f1).lResult =
        some ((sw1 * 256 + sw2 : Nat) : Int) ∧
    (scSelectFile env hist hCard cls f0 f1).dwExtraBytes = 0 ∧
    ((scSelectFile env hist hCard cls f0 f1).lResult ≠ some SCARD_S_SUCCESS ↔
      ¬ (sw1 = 0x00 ∧ sw2 = 0x00)) := by
  rw [scSelectFile_error env hist hCard cls f0 f1 sw1 sw2 h1 h2 hne h61 h]
  refine ⟨rfl, rfl, ?_⟩
  simp only [ne_eq, Option.some.injEq, SCARD_S_SUCCESS]
  omega

/-- Witness for C4 (as the code has it) at the status word `6A 82`. -/
theorem scSelectFile_card_error_witness :
    (scSelectFile (cardEnv fun _ => ⟨0, [0x6A, 0x82]⟩) [] 1 0xC0 0x3F 0x00).lResult =
        some 0x6A82 ∧
    (scSelectFile (cardEnv fun _ => ⟨0, [0x6A, 0x82]⟩) [] 1 0xC0 0x3F 0x00).lResult ≠
        some SCARD_S_SUCCESS :=
  have h := scSelectFile_card_error (cardEnv fun _ => ⟨0, [0x6A, 0x82]⟩) [] 1 0xC0 0x3F 0x00
    0x6A 0x82 (by decide) (by decide) (by decide) (by decide) rfl
  ⟨h.1, h.2.2.2 (by decide)⟩

/-- Counterexample to C4 as stated: the status word `00 00` is neither `90 00`
nor of the form `61 xx`, the transmit succeeds, and the attempt returns the
success code. -/
theorem scSelectFile_zero_status_returns_success :
    ¬ ((0x00 : Nat) = 0x90 ∧ (0x00 : Nat) = 0x00) ∧ (0x00 : Nat) ≠ 0x61 ∧
    (cardEnv fun _ => ⟨0, [0x00, 0x00]⟩).SCardTransmit [] 1
      [0xC0, 0xA4, 0x00, 0x00, 0x02, 0x3F, 0x00] 2 = ⟨SCARD_S_SUCCESS, [0x00, 0x00]⟩ ∧
    ¬ ((scSelectFile (cardEnv fun _ => ⟨0, [0x00, 0x00]⟩) [] 1 0xC0 0x3F 0x00).lResult ≠
        some SCARD_S_SUCCESS) := by
  decide

/-! ## The probe/allocate/fetch queries -/

theorem SCListReaders_invariant (env : Env) (hContext groups out0 : Nat) :
    OutputInvariant (SCListReaders env hContext groups out0) := by
  unfold SCListReaders OutputInvariant
  simp only [SCMalloc, SCFree_trace]
  split_ifs with h1 h2 h3 <;>
    simp_all [liveBlocks, ERROR_OUTOFMEMORY, SCARD_S_SUCCESS]

theorem SCListCards_invariant (env : Env) (hContext atr out0 : Nat) :
    OutputInvariant (SCListCards env hContext atr out0) := by
  unfold SCListCards OutputInvariant
  simp only [SCMalloc, SCFree_trace]
  split_ifs with h1 h2 h3 <;>
    simp_all [liveBlocks, ERROR_OUTOFMEMORY, SCARD_S_SUCCESS]

theorem SCListGroups_invariant (env : Env) (hContext out0 : Nat) :
    OutputInvariant (SCListGroups env hContext out0) := by
  unfold SCListGroups OutputInvariant
  simp only [SCMalloc, SCFree_trace]
  split_ifs with h1 h2 h3 <;>
    simp_all [liveBlocks, ERROR_OUTOFMEMORY, SCARD_S_SUCCESS]

theorem SCGetAttrib_invariant (env : Env) (hCard dwAttrId out0 : Nat) :
    OutputInvariant (SCGetAttrib env hCard dwAttrId out0) := by
  unfold SCGetAttrib OutputInvariant
  simp only [SCMalloc, SCFree_trace]
  split_ifs with h1 h2 h3 <;>
    simp_all [liveBlocks, ERROR_OUTOFMEMORY, SCARD_S_SUCCESS]

/-! ## The output invariant -/

/-- A request for more than 256 bytes returns at the range check, before the
output parameter is written: the result is a failure code and the output holds
what it held on entry. -/
theorem SCGetResponse_range_failure (env : Env) (hCard n out0 : Nat) (hn : 256 < n) :
    SCGetResponse env hCard n out0 = ⟨SCARD_E_INVALID_PARAMETER, out0, [], []⟩ := by
  have h3 : n > 256 := hn
  unfold SCGetResponse
  simp only [h3, if_true]

/-- C9, evaluated where the code departs from it: `SCGetResponse` asked for 257
bytes, the output parameter holding the non-null pointer `0x5000` on entry.
The call returns the failure code `SCARD_E_INVALID_PARAMETER` and the output
still holds `0x5000`: the output invariant fails.  The four sibling functions,
which write `NULL` to the output before their first return, satisfy the
invariant on every platform and for every value of the output on entry. -/
theorem getResponse_range_failure_keeps_output :
    (SCGetResponse (cardEnv fun _ => ⟨0, [0x90, 0x00]⟩) 1 257 0x5000).lResult =
        SCARD_E_INVALID_PARAMETER ∧
    (SCGetResponse (cardEnv fun _ => ⟨0, [0x90, 0x00]⟩) 1 257 0x5000).lResult ≠
        SCARD_S_SUCCESS ∧
    (SCGetResponse (cardEnv fun _ => ⟨0, [0x90, 0x00]⟩) 1 257 0x5000).out = 0x5000 ∧
    ¬ OutputInvariant (SCGetResponse (cardEnv fun _ => ⟨0, [0x90, 0x00]⟩) 1 257 0x5000) ∧
    (∀ (env : Env) (hContext groups atr hCard dwAttrId out0 : Nat),
      OutputInvariant (SCListReaders env hContext groups out0) ∧
      OutputInvariant (SCListCards env hContext atr out0) ∧
      OutputInvariant (SCListGroups env hContext out0) ∧
      OutputInvariant (SCGetAttrib env hCard dwAttrId out0)) := by
  refine ⟨?_, ?_, ?_, ?_, ?_⟩
  · rw [SCGetResponse_range_failure _ _ _ _ (by decide)]
  · rw [SCGetResponse_range_failure _ _ _ _ (by decide)]
    decide
  · rw [SCGetResponse_range_failure _ _ _ _ (by decide)]
  · rw [SCGetResponse_range_failure _ _ _ _ (by decide)]
    decide
  · intro env hContext groups atr hCard dwAttrId out0
    exact ⟨SCListReaders_invariant env hContext groups out0,
      SCListCards_invariant env hContext atr out0,
      SCListGroups_invariant env hContext out0,
      SCGetAttrib_invariant env hCard dwAttrId out0⟩

/-! ## Probe and fetch failures -/

/-- C10: for each of `SCListReaders`, `SCListCards`, `SCListGroups` and
`SCGetAttrib`: (1) when the probe (null buffer) fails, the function returns the
probe's code, its only primitive call is the probe (nothing is allocated, no
second call is made) and the output is null; (2) when the probe and the
allocation succeed and the fetch fails with code `e`, the function returns `e`,
the output is null and the trace is probe, allocation, fetch, release of the
allocated block. -/
theorem probe_fetch_failures (env : Env)
    (hContext groups atr hCard dwAttrId out0 : Nat) :
    ((env.SCardListReaders [] hContext groups 0 0).lResult ≠ SCARD_S_SUCCESS →
      SCListReaders env hContext groups out0 =
        ⟨(env.SCardListReaders [] hContext groups 0 0).lResult, 0, [],
          [Event.listReaders hContext groups 0]⟩) ∧
    (∀ cch sz p e,
      (env.SCardListReaders [] hContext groups 0 0).lResult = SCARD_S_SUCCESS →
      (env.SCardListReaders [] hContext groups 0 0).cch % 2 ^ 32 = cch →
      (cch * env.tcharSize) % 2 ^ 32 = sz →
      env.HeapAlloc [Event.listReaders hContext groups 0] sz = p → p ≠ 0 →
      (env.SCardListReaders [Event.listReaders hContext groups 0, Event.heapAlloc sz p]
        hContext groups p cch).lResult = e →
      e ≠ SCARD_S_SUCCESS →
      (SCListReaders env hContext groups out0).lResult = e ∧
      (SCListReaders env hContext groups out0).out = 0 ∧
      (SCListReaders env hContext groups out0).trace =
        [Event.listReaders hContext groups 0, Event.heapAlloc sz p,
          Event.listReaders hContext groups p, Event.heapFree p]) ∧
    ((env.SCardListCards [] hContext atr 0 0).lResult ≠ SCARD_S_SUCCESS →
      SCListCards env hContext atr out0 =
        ⟨(env.SCardListCards [] hContext atr 0 0).lResult, 0, [],
          [Event.listCards hContext atr 0]⟩) ∧
    (∀ cch sz p e,
      (env.SCardListCards [] hContext atr 0 0).lResult = SCARD_S_SUCCESS →
      (env.SCardListCards [] hContext atr 0 0).cch % 2 ^ 32 = cch →
      (cch * env.tcharSize) % 2 ^ 32 = sz →
      env.HeapAlloc [Event.listCards hContext atr 0] sz = p → p ≠ 0 →
      (env.SCardListCards [Event.listCards hContext atr 0, Event.heapAlloc sz p]
        hContext atr p cch).lResult = e →
      e ≠ SCARD_S_SUCCESS →
      (SCListCards env hContext atr out0).lResult = e ∧
      (SCListCards env hContext atr out0).out = 0 ∧
      (SCListCards env hContext atr out0).trace =
        [Event.listCards hContext atr 0, Event.heapAlloc sz p,
          Event.listCards hContext atr p, Event.heapFree p]) ∧
    ((env.SCardListReaderGroups [] hContext 0 0).lResult ≠ SCARD_S_SUCCESS →
      SCListGroups env hContext out0 =
        ⟨(env.SCardListReaderGroups [] hContext 0 0).lResult, 0, [],
          [Event.listReaderGroups hContext 0]⟩) ∧
    (∀ cch sz p e,
      (env.SCardListReaderGroups [] hContext 0 0).lResult = SCARD_S_SUCCESS →
      (env.SCardListReaderGroups [] hContext 0 0).cch % 2 ^ 32 = cch →
      (cch * env.tcharSize) % 2 ^ 32 = sz →
      env.HeapAlloc [Event.listReaderGroups hContext 0] sz = p → p ≠ 0 →
      (env.SCardListReaderGroups [Event.listReaderGroups hContext 0, Event.heapAlloc sz p]
        hContext p cch).lResult = e →
      e ≠ SCARD_S_SUCCESS →
      (SCListGroups env hContext out0).lResult = e ∧
      (SCListGroups env hContext out0).out = 0 ∧
      (SCListGroups env hContext out0).trace =
        [Event.listReaderGroups hContext 0, Event.heapAlloc sz p,
          Event.listReaderGroups hContext p, Event.heapFree p]) ∧
    ((env.SCardGetAttrib [] hCard dwAttrId 0 0).lResult ≠ SCARD_S_SUCCESS →
      SCGetAttrib env hCard dwAttrId out0 =
        ⟨(env.SCardGetAttrib [] hCard dwAttrId 0 0).lResult, 0, [],
          [Event.getAttrib hCard dwAttrId 0]⟩) ∧
    (∀ cch sz p e,
      (env.SCardGetAttrib [] hCard dwAttrId 0 0).lResult = SCARD_S_SUCCESS →
      (env.SCardGetAttrib [] hCard dwAttrId 0 0).cch % 2 ^ 32 = cch →
      cch = sz →
      env.HeapAlloc [Event.getAttrib hCard dwAttrId 0] sz = p → p ≠ 0 →
      (env.SCardGetAttrib [Event.getAttrib hCard dwAttrId 0, Event.heapAlloc sz p]
        hCard dwAttrId p cch).lResult = e →
      e ≠ SCARD_S_SUCCESS →
      (SCGetAttrib env hCard dwAttrId out0).lResult = e ∧
      (SCGetAttrib env hCard dwAttrId out0).out = 0 ∧
      (SCGetAttrib env hCard dwAttrId out0).trace =
        [Event.getAttrib hCard dwAttrId 0, Event.heapAlloc sz p,
          Event.getAttrib hCard dwAttrId p, Event.heapFree p]) := by
  refine ⟨?_, ?_, ?_, ?_, ?_, ?_, ?_, ?_⟩
  · intro h
    unfold SCListReaders
    simp only [h, ne_eq, not_false_eq_true, if_true]
  · intro cch sz p e hprobe hcch hsz hpp hp he hne
    subst hcch hsz hpp he
    unfold SCListReaders
    simp only [hprobe, ne_eq, not_true_eq_false, if_false, SCMalloc, hp, dite_false, hne,
      SCFree_trace, List.cons_append, List.nil_append]
    exact ⟨trivial, trivial, trivial⟩
  · intro h
    unfold SCListCards
    simp only [h, ne_eq, not_false_eq_true, if_true]
  · intro cch sz p e hprobe hcch hsz hpp hp he hne
    subst hcch hsz hpp he
    unfold SCListCards
    simp only [hprobe, ne_eq, not_true_eq_false, if_false, SCMalloc, hp, dite_false, hne,
      SCFree_trace, List.cons_append, List.nil_append]
    exact ⟨trivial, trivial, trivial⟩
  · intro h
    unfold SCListGroups
    simp only [h, ne_eq, not_false_eq_true, if_true]
  · intro cch sz p e hprobe hcch hsz hpp hp he hne
    subst hcch hsz hpp he
    unfold SCListGroups
    simp only [hprobe, ne_eq, not_true_eq_false, if_false, SCMalloc, hp, dite_false, hne,
      SCFree_trace, List.cons_append, List.nil_append]
    exact ⟨trivial, trivial, trivial⟩
  · intro h
    unfold SCGetAttrib
    simp only [h, ne_eq, not_false_eq_true, if_true]
  · intro cch sz p e hprobe hcch hsz hpp hp he hne
    subst hcch hsz hpp he
    unfold SCGetAttrib
    simp only [hprobe, ne_eq, not_true_eq_false, if_false, SCMalloc, hp, dite_false, hne,
      SCFree_trace, List.cons_append, List.nil_append]
    exact ⟨trivial, trivial, trivial⟩

/-- Witness for C10: a platform whose probe fails with code 5, and one whose
probe reports 4 characters (8 bytes, 4 for the attribute) and whose fetch fails
with code 6. -/
theorem probe_fetch_failures_witness :
    (SCListReaders (queryEnv ⟨5, 0, []⟩ ⟨0, 0, []⟩) 7 0 9 =
        ⟨5, 0, [], [Event.listReaders 7 0 0]⟩ ∧
      (SCListReaders (queryEnv ⟨0, 4, []⟩ ⟨6, 0, []⟩) 7 0 9).trace =
        [Event.listReaders 7 0 0, Event.heapAlloc 8 0x1000, Event.listReaders 7 0 0x1000,
          Event.heapFree 0x1000]) ∧
    (SCListCards (queryEnv ⟨5, 0, []⟩ ⟨0, 0, []⟩) 7 0 9 =
        ⟨5, 0, [], [Event.listCards 7 0 0]⟩ ∧
      (SCListCards (queryEnv ⟨0, 4, []⟩ ⟨6, 0, []⟩) 7 0 9).trace =
        [Event.listCards 7 0 0, Event.heapAlloc 8 0x1000, Event.listCards 7 0 0x1000,
          Event.heapFree 0x1000]) ∧
    (SCListGroups (queryEnv ⟨5, 0, []⟩ ⟨0, 0, []⟩) 7 9 =
        ⟨5, 0, [], [Event.listReaderGroups 7 0]⟩ ∧
      (SCListGroups (queryEnv ⟨0, 4, []⟩ ⟨6, 0, []⟩) 7 9).trace =
        [Event.listReaderGroups 7 0, Event.heapAlloc 8 0x1000,
          Event.listReaderGroups 7 0x1000, Event.heapFree 0x1000]) ∧
    (SCGetAttrib (queryEnv ⟨5, 0, []⟩ ⟨0, 0, []⟩) 1 2 9 =
        ⟨5, 0, [], [Event.getAttrib 1 2 0]⟩ ∧
      (SCGetAttrib (queryEnv ⟨0, 4, []⟩ ⟨6, 0, []⟩) 1 2 9).trace =
        [Event.getAttrib 1 2 0, Event.heapAlloc 4 0x1000, Event.getAttrib 1 2 0x1000,
          Event.heapFree 0x1000]) :=
  have hp := probe_fetch_failures (queryEnv ⟨5, 0, []⟩ ⟨0, 0, []⟩) 7 0 0 1 2 9
  have hf := probe_fetch_failures (queryEnv ⟨0, 4, []⟩ ⟨6, 0, []⟩) 7 0 0 1 2 9
  ⟨⟨hp.1 (by decide),
      (hf.2.1 4 8 0x1000 6 rfl rfl rfl rfl (by decide) rfl (by decide)).2.2⟩,
    ⟨hp.2.2.1 (by decide),
      (hf.2.2.2.1 4 8 0x1000 6 rfl rfl rfl rfl (by decide) rfl (by decide)).2.2⟩,
    ⟨hp.2.2.2.2.1 (by decide),
      (hf.2.2.2.2.2.1 4 8 0x1000 6 rfl rfl rfl rfl (by decide) rfl (by decide)).2.2⟩,
    ⟨hp.2.2.2.2.2.2.1 (by decide),
      (hf.2.2.2.2.2.2.2 4 4 0x1000 6 rfl rfl rfl rfl (by decide) rfl (by decide)).2.2⟩⟩

end SCCommon
